import Mathlib

/-
Verification of the expo-audio-hooks useAudio controller
(src/src/use-audio.ts, with the untyped variant of the same hook as
secondary evidence of intent).

The embedding is shallow: the controller's mutable refs and React state
become an explicit record `CtrlState`; the asynchronous load-attempt
procedure `createAudioObjectFromQueue` is split at its `loadAsync`
suspension point into `createAudioObjectFromQueueStart` (synchronous part
up to and including issuing the engine load call) and
`createAudioObjectFromQueueFinish` (the continuation: post-load status
query, autoplay, and the finally block); engine interactions are recorded
as a trace of `EngineCall` values; the interleaving of continuations,
re-renders and engine notifications is modelled by an event machine
(`stepEv` / `runEvents`) whose events carry the engine's responses.
-/

/-- Resource descriptor: either a streaming source carrying a `uri` field,
or an opaque local-file handle. JavaScript reference identity of local-file
handles is modelled by a `refId` that is distinct for distinct allocations,
so structural equality of the embedded values coincides with `===`. -/
inductive AudioResource where
  | stream (uri : String)
  | localFile (refId : Nat) (payload : String)
deriving DecidableEq, Repr

/-- Translation of `checkSameAudioResources` (use-audio.ts lines 43-57):
false if either argument is null/undefined; if both carry a `uri` field
compare the uris by value; otherwise JavaScript `===`. -/
def checkSameAudioResources : Option AudioResource → Option AudioResource → Bool
  | some (.stream u1), some (.stream u2) => decide (u1 = u2)
  | some r1, some r2 => decide (r1 = r2)
  | _, _ => false

/-- Translation of the `isResourceDefined` memo (use-audio.ts lines 95-108):
null/undefined is not defined; a streaming resource is defined iff its uri
is truthy (non-empty); any other non-null value is a local file, defined. -/
def isResourceDefined : Option AudioResource → Bool
  | none => false
  | some (.stream u) => decide (u ≠ "")
  | some (.localFile _ _) => true

/-- JavaScript number that may be NaN; positions/durations in milliseconds. -/
inductive JsNum where
  | nan
  | val (x : Int)
deriving DecidableEq, Repr

/-- Engine playback status snapshot: loaded flag plus optional (possibly
absent) position and duration fields, as consumed by the hook. -/
structure AVPlaybackStatus where
  isLoaded : Bool := false
  positionMillis : Option Int := none
  durationMillis : Option JsNum := none
deriving DecidableEq, Repr

/-- Payload forwarded to the time-update observer. -/
structure PlaybackTimeUpdate where
  positionMillis : Int
  durationMillis : Int
  remainingMillis : Int
deriving DecidableEq, Repr

/-- Translation of the duration fallback in `onPlaybackStatusUpdate`
(use-audio.ts lines 188-190): `Number.isNaN(d) ? 1 : d ?? 1`. A present
NaN falls back to 1; an absent value falls back to 1 (`Number.isNaN` of
undefined is false, then `?? 1` applies); a present number — including 0 —
is kept. -/
def resolveDurationMillis : Option JsNum → Int
  | some .nan => 1
  | some (.val x) => x
  | none => 1

/-- Translation of the time-update branch of `onPlaybackStatusUpdate`
(use-audio.ts lines 183-197): when the time observer is registered and the
status says loaded, forward position (defaulting to 0), the resolved
duration, and `remaining = duration - position`; otherwise nothing is
forwarded to the time observer. -/
def onPlaybackStatusUpdateTimeProjection (status : AVPlaybackStatus) :
    Option PlaybackTimeUpdate :=
  if status.isLoaded then
    let positionMillis := status.positionMillis.getD 0
    let durationMillis := resolveDurationMillis status.durationMillis
    some { positionMillis := positionMillis,
           durationMillis := durationMillis,
           remainingMillis := durationMillis - positionMillis }
  else
    none

/-- Caller-provided settings object; `none` models an absent property. -/
structure Settings where
  autoPlay : Option Bool := none
deriving DecidableEq, Repr

/-- Field-wise model of merging two objects for the `autoPlay` property,
with the second argument being the source whose own properties overwrite
the first (the target): `Object.assign(target, source)` and spread
`{ ...target, ...source }` both behave this way per property. -/
def assignAutoPlayField (target source : Option Bool) : Option Bool :=
  match source with
  | some b => some b
  | none => target

/-- Translation of the settings destructuring in use-audio.ts lines 63-69:
`Object.assign(providedSettings || {}, { autoPlay: false })` — here the
defaults object is the SOURCE, so its `autoPlay: false` overwrites any
caller-provided value; the destructured value is then used as a boolean. -/
def tsResolvedAutoPlay (providedSettings : Option Settings) : Bool :=
  (assignAutoPlayField (providedSettings.getD {}).autoPlay (some false)).getD false

/-- Translation of `componentSettings` in the untyped variant of the hook
(lines 36-45): `{ ...defaultSettings, ...settings }` — the caller's
settings are the source and overwrite the default `autoPlay: false`. -/
def jsComponentSettingsAutoPlay (settings : Settings) : Bool :=
  (assignAutoPlayField (some false) settings.autoPlay).getD false

/-- Calls issued to the audio engine, tagged with the session (sound
object) they address. `loadSound` records the resource value read from the
pending slot at the moment the load call is issued. -/
inductive EngineCall where
  | getStatus (sid : Nat)
  | stop (sid : Nat)
  | unloadSound (sid : Nat)
  | loadSound (sid : Nat) (resource : Option AudioResource)
  | setPosition (sid : Nat) (positionMs : Int)
deriving DecidableEq, Repr

/-- Status-update callback slot of a session: either the forwarding
callback `onPlaybackStatusUpdate` registered by the load-attempt
procedure, or the interception closure installed by the pending-swap
branch of the resource-change effect. -/
inductive StatusHandler where
  | forwarding
  | interception
deriving DecidableEq, Repr

/-- Register a status callback on a session (`setOnPlaybackStatusUpdate`):
the latest registration wins, modelled by prepending to an association
list. -/
def setHandler (hs : List (Nat × StatusHandler)) (sid : Nat) (h : StatusHandler) :
    List (Nat × StatusHandler) :=
  (sid, h) :: hs

/-- Current status callback of a session, if one was ever registered. -/
def getHandler (hs : List (Nat × StatusHandler)) (sid : Nat) : Option StatusHandler :=
  (hs.find? (fun p => p.1 == sid)).map Prod.snd

/-- Mutable state of the hook: the refs `audioObject`,
`currentAudioResource`, `nextAudioResource`, `isReadyForNextResource`, the
React state `isLoadingAudio`, `isPlaying`, `status`, `metadata`, the
per-session callback slots, a counter producing fresh session ids, and the
real mounted-ness of the component. -/
structure CtrlState where
  nextSid : Nat := 0
  audioObject : Option Nat := none
  currentAudioResource : Option AudioResource := none
  nextAudioResource : Option AudioResource := none
  isReadyForNextResource : Bool := true
  isLoadingAudio : Bool := false
  isPlaying : Bool := false
  status : Option AVPlaybackStatus := none
  metadata : Option Nat := none
  statusHandlers : List (Nat × StatusHandler) := []
  metadataHandlers : List Nat := []
  mounted : Bool := true
deriving DecidableEq, Repr

/-- Truth value of the mounted test as written in use-audio.ts
(lines 127, 268, 278): the source tests `!isMounted` where `isMounted` is
the callback returned by react-use's `useMountedState` — a function
object, which is always truthy — instead of calling it (`!isMounted()`).
The test therefore never fires, regardless of the component's real
mounted-ness, which this definition models by ignoring its argument. -/
def tsMountedGuard (_mounted : Bool) : Bool := true

/-- Translation of `unload` (use-audio.ts lines 111-134): no-op without a
session; otherwise query status, stop if loaded, unload, and then — the
mounted test being vacuous, see `tsMountedGuard` — clear the session
reference and the current resource. `oldLoaded` is the engine's answer to
the status query. -/
def unload (s : CtrlState) (oldLoaded : Bool) : CtrlState × List EngineCall :=
  match s.audioObject with
  | none => (s, [])
  | some sid =>
    let calls := [EngineCall.getStatus sid]
      ++ (if oldLoaded then [EngineCall.stop sid] else [])
      ++ [EngineCall.unloadSound sid]
    if tsMountedGuard s.mounted = false then
      (s, calls)
    else
      ({ s with audioObject := none, currentAudioResource := none }, calls)

/-- Result of the synchronous part of the load-attempt procedure: the
state after issuing the load call, the engine calls emitted so far, and
the id of the newly created session. -/
structure Phase1Result where
  state : CtrlState
  calls : List EngineCall
  sid : Nat
deriving DecidableEq, Repr

/-- Translation of `createAudioObjectFromQueue` up to and including the
`loadAsync` call (use-audio.ts lines 242-264): set the loading flag, clear
the cached status projection, tear down the existing session, create a
fresh sound, register the forwarding status callback and the metadata
callback on it, and issue the load call for the value currently held in
the pending slot `nextAudioResource`. -/
def createAudioObjectFromQueueStart (s0 : CtrlState) (oldLoaded : Bool) : Phase1Result :=
  let s1 := { s0 with isLoadingAudio := true, status := none }
  let p := unload s1 oldLoaded
  let s2 := p.1
  let sid := s2.nextSid
  let s3 := { s2 with
    nextSid := sid + 1,
    audioObject := some sid,
    statusHandlers := setHandler s2.statusHandlers sid StatusHandler.forwarding,
    metadataHandlers := sid :: s2.metadataHandlers }
  { state := s3,
    calls := p.2 ++ [EngineCall.loadSound sid s3.nextAudioResource],
    sid := sid }

/-- Translation of the finally block (use-audio.ts lines 276-289): the
mounted test being vacuous (`tsMountedGuard`), it always sets
`currentAudioResource` to the value of the pending slot, clears the
pending slot, marks the queue ready for the next resource, and clears the
loading flag. -/
def finallyCleanup (s : CtrlState) : CtrlState :=
  if tsMountedGuard s.mounted = false then s
  else
    { s with
      currentAudioResource := s.nextAudioResource,
      nextAudioResource := none,
      isReadyForNextResource := true,
      isLoadingAudio := false }

/-- Translation of the continuation of `createAudioObjectFromQueue` after
`loadAsync` settles (use-audio.ts lines 265-289). On success: store the
freshly queried status, then — the mounted test being vacuous — set the
playing intent if `autoPlay` is configured; the finally block always runs.
On failure the try body aborts (no status store, no autoplay) and the
finally block still runs; the rejection itself propagates to the caller. -/
def createAudioObjectFromQueueFinish (autoPlay : Bool) (sid : Nat) (ok : Bool)
    (loadedStatus : AVPlaybackStatus) (s0 : CtrlState) : CtrlState × List EngineCall :=
  if ok then
    let s1 := { s0 with status := some loadedStatus }
    let s2 :=
      if tsMountedGuard s0.mounted = false then s1
      else if autoPlay then { s1 with isPlaying := true } else s1
    (finallyCleanup s2, [EngineCall.getStatus sid])
  else
    (finallyCleanup s0, [])

/-- Outcome of one run of the resource-change effect body. -/
inductive EffectOutcome where
  | noAction
  | queuedOnly
  | interceptInstalled (sid : Nat)
  | interceptNoSession
  | startedLoad
deriving DecidableEq, Repr

/-- Translation of the synchronous body of the resource-change effect
(use-audio.ts lines 209-313): bail out on an undefined resource, on a
resource equivalent to the current one, or on one equivalent to the
already queued one; otherwise overwrite the single pending slot; bail out
if the queue is still busy discarding a superseded load; if a load is in
flight, mark the queue busy and replace the in-flight session's status
callback with the interception closure; otherwise start a load attempt. -/
def resourceChangeEffect (audioResource : Option AudioResource) (s : CtrlState) :
    CtrlState × EffectOutcome :=
  if isResourceDefined audioResource = false then (s, EffectOutcome.noAction)
  else if checkSameAudioResources s.currentAudioResource audioResource = true then
    (s, EffectOutcome.noAction)
  else if checkSameAudioResources s.nextAudioResource audioResource = true then
    (s, EffectOutcome.noAction)
  else
    let s1 := { s with nextAudioResource := audioResource }
    if s1.isReadyForNextResource = false then (s1, EffectOutcome.queuedOnly)
    else if s1.isLoadingAudio = true then
      let s2 := { s1 with isReadyForNextResource := false }
      match s2.audioObject with
      | none => (s2, EffectOutcome.interceptNoSession)
      | some sid =>
        ({ s2 with statusHandlers := setHandler s2.statusHandlers sid StatusHandler.interception },
         EffectOutcome.interceptInstalled sid)
    else (s1, EffectOutcome.startedLoad)

/-- Translation of `seek` (use-audio.ts lines 324-330): no engine call
without a session; otherwise forward the position to the session. -/
def seek (s : CtrlState) (positionMs : Int) : List EngineCall :=
  match s.audioObject with
  | none => []
  | some sid => [EngineCall.setPosition sid positionMs]

/-- Whole-system configuration: controller state, the set of load calls
whose `loadAsync` promise has not settled yet (suspended continuations),
the accumulated engine-call trace, and the payloads that reached the
public status and time-update observers. -/
structure Machine where
  ctrl : CtrlState := {}
  pendingLoads : List Nat := []
  trace : List EngineCall := []
  observerStatusForwards : List AVPlaybackStatus := []
  observerTimeForwards : List PlaybackTimeUpdate := []
deriving DecidableEq, Repr

/-- Schedulable events: a re-render with a (possibly new) desired
resource running the effect, the resumption of a suspended load
continuation with the engine's verdict, an engine status notification
delivered to a session's registered callback, an engine metadata
notification, and component unmount. Events carry the engine responses
consumed by any engine query performed while handling them. -/
inductive Ev where
  | request (r : Option AudioResource) (oldLoaded : Bool)
  | resumeLoad (sid : Nat) (ok : Bool) (loadedStatus : AVPlaybackStatus)
  | notifyStatus (sid : Nat) (st : AVPlaybackStatus) (oldLoaded : Bool)
  | notifyMetadata (sid : Nat) (meta : Nat)
  | unmount
deriving DecidableEq, Repr

/-- One event of the system. A `request` runs the effect and, when the
queue is idle, the synchronous part of a load attempt. A `resumeLoad` runs
the suspended continuation of the matching load call. A `notifyStatus`
dispatches on the target session's registered callback: the forwarding
callback projects and forwards to the observers, the interception closure
runs the load-attempt procedure again (its synchronous part, its own load
then being in flight). A `notifyMetadata` stores the metadata when the
session's metadata callback is registered. `unmount` clears the real
mounted flag. Granularity: each event is one maximal synchronous segment,
so a load-attempt start (the teardown awaits plus the load call) runs as
one event; this machine therefore describes exactly the schedules in which
no notification is delivered at a suspension point inside a teardown. The
`microStep` machine below refines the load-attempt start into its
individual suspension points for the analyses that need the interleaved
schedules. -/
def stepEv (autoPlay : Bool) (m : Machine) : Ev → Machine
  | Ev.request r oldLoaded =>
    match resourceChangeEffect r m.ctrl with
    | (s, EffectOutcome.startedLoad) =>
      let p := createAudioObjectFromQueueStart s oldLoaded
      { m with ctrl := p.state,
               pendingLoads := m.pendingLoads ++ [p.sid],
               trace := m.trace ++ p.calls }
    | (s, _) => { m with ctrl := s }
  | Ev.resumeLoad sid ok loadedStatus =>
    if m.pendingLoads.contains sid then
      let p := createAudioObjectFromQueueFinish autoPlay sid ok loadedStatus m.ctrl
      { m with ctrl := p.1,
               pendingLoads := m.pendingLoads.erase sid,
               trace := m.trace ++ p.2 }
    else m
  | Ev.notifyStatus sid st oldLoaded =>
    match getHandler m.ctrl.statusHandlers sid with
    | some StatusHandler.forwarding =>
      { m with
        observerStatusForwards := m.observerStatusForwards ++ [st],
        observerTimeForwards :=
          match onPlaybackStatusUpdateTimeProjection st with
          | some t => m.observerTimeForwards ++ [t]
          | none => m.observerTimeForwards }
    | some StatusHandler.interception =>
      let p := createAudioObjectFromQueueStart m.ctrl oldLoaded
      { m with ctrl := p.state,
               pendingLoads := m.pendingLoads ++ [p.sid],
               trace := m.trace ++ p.calls }
    | none => m
  | Ev.notifyMetadata sid meta =>
    if m.ctrl.metadataHandlers.contains sid then
      { m with ctrl := { m.ctrl with metadata := some meta } }
    else m
  | Ev.unmount =>
    { m with ctrl := { m.ctrl with mounted := false } }

/-- Run a sequence of events. -/
def runEvents (autoPlay : Bool) (m : Machine) (evs : List Ev) : Machine :=
  evs.foldl (stepEv autoPlay) m

/-- Initial system: fresh controller, no pending loads, empty trace. -/
def initMachine : Machine := {}

/-- A sequence of resource-change requests as events. -/
def requestEvs (rs : List AudioResource) (oldLoaded : Bool) : List Ev :=
  rs.map (fun r => Ev.request (some r) oldLoaded)

/-- Controller-state part of handling one resource-change request. -/
def applyRequest (st : CtrlState) (r : AudioResource) : CtrlState :=
  (resourceChangeEffect (some r) st).1

/-- Controller-state part of handling a sequence of requests. -/
def applyRequests (st : CtrlState) (rs : List AudioResource) : CtrlState :=
  rs.foldl applyRequest st

/-- Recognizer for engine load calls in a trace. -/
def isLoadCall : EngineCall → Bool
  | EngineCall.loadSound _ _ => true
  | _ => false

/-- Effect of one engine call on the set of sessions whose teardown has
not yet been observed: a load call makes its session live, an unload call
retires it; other calls are irrelevant. -/
def aliveStep (acc : List Nat) : EngineCall → List Nat
  | EngineCall.loadSound sid _ => sid :: acc
  | EngineCall.unloadSound sid => acc.erase sid
  | _ => acc

/-- Sessions live after a trace. -/
def aliveAfter (tr : List EngineCall) : List Nat := tr.foldl aliveStep []

/-- Check that, starting from the given live set, at most one session is
live after every prefix of the trace. -/
def aliveBoundedFrom (acc : List Nat) : List EngineCall → Bool
  | [] => true
  | c :: cs =>
    let acc1 := aliveStep acc c
    decide (acc1.length ≤ 1) && aliveBoundedFrom acc1 cs

/-- Invariant used while several requests arrive during an in-flight load
that has already been superseded: no current resource (the teardown at the
start of the in-flight attempt cleared it), queue busy, loading flag set,
the in-flight session still referenced with the interception installed on
it, and the pending slot equivalent to the most recent request. -/
def InSwapWindow (a : Nat) (lastR : AudioResource) (st : CtrlState) : Prop :=
  st.currentAudioResource = none ∧
  st.isReadyForNextResource = false ∧
  st.isLoadingAudio = true ∧
  st.audioObject = some a ∧
  getHandler st.statusHandlers a = some StatusHandler.interception ∧
  checkSameAudioResources st.nextAudioResource (some lastR) = true

/-- Status reported by the engine at linkage of the counterexample runs:
loaded, position 5 ms, duration reported as exactly 0 ms. -/
def zeroDurationStatus : AVPlaybackStatus :=
  { isLoaded := true, positionMillis := some 5, durationMillis := some (JsNum.val 0) }

/-- Event sequence: request resource a; while its load is in flight
request resource b (pending swap, interception installed on session 0);
the in-flight load's own continuation resumes first and runs its finally
block; only then does the completion notification reach the interception. -/
def c2Events : List Ev :=
  [Ev.request (some (AudioResource.stream "a")) false,
   Ev.request (some (AudioResource.stream "b")) false,
   Ev.resumeLoad 0 true { isLoaded := true },
   Ev.notifyStatus 0 { isLoaded := true } true]

/-- System after running `c2Events`. -/
def c2Run : Machine := runEvents false initMachine c2Events

/-- System after: request a, then request b while a's load is in flight. -/
def c8Base : Machine :=
  runEvents false initMachine
    [Ev.request (some (AudioResource.stream "a")) false,
     Ev.request (some (AudioResource.stream "b")) false]

/-- First notification from the superseded session 0. -/
def c8AfterFirst : Machine :=
  stepEv false c8Base (Ev.notifyStatus 0 { isLoaded := true } true)

/-- Second notification from the same superseded session 0. -/
def c8AfterSecond : Machine :=
  stepEv false c8AfterFirst (Ev.notifyStatus 0 { isLoaded := false } false)

/-- System with a load of resource x in flight. -/
def c4Loading : Machine :=
  stepEv false initMachine (Ev.request (some (AudioResource.stream "x")) false)

/-- The component unmounts while the load is in flight. -/
def c4Unmounted : Machine := stepEv false c4Loading Ev.unmount

/-- The in-flight load settles after the unmount. -/
def c4Resumed : Machine :=
  stepEv false c4Unmounted (Ev.resumeLoad 0 true { isLoaded := true })

/-- Machine-level safety property: the trace so far never had more than
one live session after any prefix, and the set of live sessions matches
the controller's session reference (the referenced session or nothing). -/
def MachineAliveOk (m : Machine) : Prop :=
  aliveBoundedFrom [] m.trace = true ∧
  ((m.ctrl.audioObject = none ∧ aliveAfter m.trace = []) ∨
   (∃ a, m.ctrl.audioObject = some a ∧
     (aliveAfter m.trace = [a] ∨ aliveAfter m.trace = [])))

/-- Concrete loaded status with both time fields absent. -/
def c5WitnessStatus : AVPlaybackStatus := { isLoaded := true }

/-- Time-update payload the projection produces for `c5WitnessStatus`. -/
def c5WitnessUpdate : PlaybackTimeUpdate :=
  { positionMillis := 0, durationMillis := 1, remainingMillis := 1 }

/-- System with the load of resource a (session 0) in flight. -/
def c2WitnessMachine : Machine :=
  { ctrl := { nextSid := 1, audioObject := some 0, isLoadingAudio := true,
              nextAudioResource := some (AudioResource.stream "a"),
              statusHandlers := [(0, StatusHandler.forwarding)] },
    pendingLoads := [0],
    trace := [EngineCall.loadSound 0 (some (AudioResource.stream "a"))] }

/-- System whose session 0 carries the interception with resource b queued. -/
def c8WitnessMachine : Machine :=
  { ctrl := { nextSid := 1, audioObject := some 0, isLoadingAudio := true,
              isReadyForNextResource := false,
              nextAudioResource := some (AudioResource.stream "b"),
              statusHandlers := [(0, StatusHandler.interception)] } }

/-- System whose session 0 carries the interception and has the metadata
callback registered. -/
def c10WitnessMachine : Machine :=
  { ctrl := { nextSid := 1, audioObject := some 0, isLoadingAudio := true,
              isReadyForNextResource := false,
              nextAudioResource := some (AudioResource.stream "b"),
              statusHandlers := [(0, StatusHandler.interception)],
              metadataHandlers := [0] } }

/-- Continuation of one run of `createAudioObjectFromQueue` parked at one
of the suspension points of its start: the three awaits inside `unload()`
(use-audio.ts lines 118, 120, 124) and the `loadAsync` await. Each
`audioObject.current` dereference in the source happens when the
corresponding statement runs, so the continuations carry no target: the
target is re-read from the controller state at each resumption. -/
inductive ProcCont where
  | unloadAwaitStatus
  | unloadAwaitStop
  | unloadAwaitUnload
  | awaitLoad (sid : Nat)
deriving DecidableEq, Repr

/-- Continuation of a suspended run, if that run is still suspended. -/
def getTask (ts : List (Nat × ProcCont)) (tid : Nat) : Option ProcCont :=
  (ts.find? (fun p => p.1 == tid)).map Prod.snd

/-- Drop a run's continuation (the run finished or crashed). -/
def removeTask (ts : List (Nat × ProcCont)) (tid : Nat) : List (Nat × ProcCont) :=
  ts.filter (fun p => !(p.1 == tid))

/-- Park a run at a new suspension point. -/
def setTask (ts : List (Nat × ProcCont)) (tid : Nat) (c : ProcCont) :
    List (Nat × ProcCont) :=
  (tid, c) :: removeTask ts tid

/-- Fine-grained system: controller state, the suspended runs of
`createAudioObjectFromQueue` with their continuations, a counter producing
fresh run ids, and the engine-call trace. Observer forwarding is as in the
coarse machine and is not tracked here; this model only refines the
suspension structure of the load-attempt procedure. -/
structure MicroMachine where
  ctrl : CtrlState := {}
  tasks : List (Nat × ProcCont) := []
  nextTid : Nat := 0
  trace : List EngineCall := []
deriving DecidableEq, Repr

/-- Synchronous prefix of a run of `createAudioObjectFromQueue`: set the
loading flag, clear the cached status, then enter `unload()`. With no
session the unload entry check returns at once (no engine call, and no
session exists whose callback could interleave), so the run proceeds to
create the fresh sound, register its callbacks and issue the load call;
with a session the run issues that session's status query and suspends. -/
def microEnterRun (m : MicroMachine) : MicroMachine :=
  let c1 := { m.ctrl with isLoadingAudio := true, status := none }
  match c1.audioObject with
  | none =>
    let sid := c1.nextSid
    let c2 := { c1 with
      nextSid := sid + 1,
      audioObject := some sid,
      statusHandlers := setHandler c1.statusHandlers sid StatusHandler.forwarding,
      metadataHandlers := sid :: c1.metadataHandlers }
    { m with ctrl := c2,
             tasks := m.tasks ++ [(m.nextTid, ProcCont.awaitLoad sid)],
             nextTid := m.nextTid + 1,
             trace := m.trace ++ [EngineCall.loadSound sid c2.nextAudioResource] }
  | some t =>
    { m with ctrl := c1,
             tasks := m.tasks ++ [(m.nextTid, ProcCont.unloadAwaitStatus)],
             nextTid := m.nextTid + 1,
             trace := m.trace ++ [EngineCall.getStatus t] }

/-- Tail of a run after its `unloadAsync` resolved and the refs were
cleared: create the fresh sound, set it as the current session, register
the forwarding and metadata callbacks on it, and issue the load call for
the value currently held in the pending slot. -/
def microCreateAndLoad (m : MicroMachine) (tid : Nat) : MicroMachine :=
  let sid := m.ctrl.nextSid
  let c2 := { m.ctrl with
    nextSid := sid + 1,
    audioObject := some sid,
    statusHandlers := setHandler m.ctrl.statusHandlers sid StatusHandler.forwarding,
    metadataHandlers := sid :: m.ctrl.metadataHandlers }
  { m with ctrl := c2,
           tasks := setTask m.tasks tid (ProcCont.awaitLoad sid),
           trace := m.trace ++ [EngineCall.loadSound sid c2.nextAudioResource] }

/-- Fine-grained events: an engine status notification delivered to a
session's callback (spawning a run when the interception is installed),
and the resolution of each awaited engine call of a suspended run. -/
inductive MicroEv where
  | notify (sid : Nat)
  | resumeStatus (tid : Nat) (isLoaded : Bool)
  | resumeStop (tid : Nat)
  | resumeUnload (tid : Nat)
  | resumeLoad (tid : Nat) (ok : Bool) (st : AVPlaybackStatus)
deriving DecidableEq, Repr

/-- One fine-grained step. A run resuming inside `unload()` re-reads
`audioObject.current` before issuing its next engine call, exactly as the
source dereferences it per statement; if another run has meanwhile set the
ref to null, the dereference throws, the rejection propagates through the
try of `createAudioObjectFromQueue`, and its finally block runs. After
`unloadAsync` resolves the run clears the refs unconditionally (the
mounted test is vacuous, see `tsMountedGuard`) — even when another run has
already installed its own fresh sound there — and proceeds to create and
load. A notification finding the interception spawns a new run. -/
def microStep (autoPlay : Bool) (m : MicroMachine) : MicroEv → MicroMachine
  | MicroEv.notify sid =>
    match getHandler m.ctrl.statusHandlers sid with
    | some StatusHandler.interception => microEnterRun m
    | _ => m
  | MicroEv.resumeStatus tid isLoaded =>
    match getTask m.tasks tid with
    | some ProcCont.unloadAwaitStatus =>
      if isLoaded then
        match m.ctrl.audioObject with
        | some t =>
          { m with tasks := setTask m.tasks tid ProcCont.unloadAwaitStop,
                   trace := m.trace ++ [EngineCall.stop t] }
        | none =>
          { m with ctrl := finallyCleanup m.ctrl, tasks := removeTask m.tasks tid }
      else
        match m.ctrl.audioObject with
        | some t =>
          { m with tasks := setTask m.tasks tid ProcCont.unloadAwaitUnload,
                   trace := m.trace ++ [EngineCall.unloadSound t] }
        | none =>
          { m with ctrl := finallyCleanup m.ctrl, tasks := removeTask m.tasks tid }
    | _ => m
  | MicroEv.resumeStop tid =>
    match getTask m.tasks tid with
    | some ProcCont.unloadAwaitStop =>
      match m.ctrl.audioObject with
      | some t =>
        { m with tasks := setTask m.tasks tid ProcCont.unloadAwaitUnload,
                 trace := m.trace ++ [EngineCall.unloadSound t] }
      | none =>
        { m with ctrl := finallyCleanup m.ctrl, tasks := removeTask m.tasks tid }
    | _ => m
  | MicroEv.resumeUnload tid =>
    match getTask m.tasks tid with
    | some ProcCont.unloadAwaitUnload =>
      microCreateAndLoad
        { m with ctrl := { m.ctrl with audioObject := none, currentAudioResource := none } }
        tid
    | _ => m
  | MicroEv.resumeLoad tid ok st =>
    match getTask m.tasks tid with
    | some (ProcCont.awaitLoad sid) =>
      let p := createAudioObjectFromQueueFinish autoPlay sid ok st m.ctrl
      { m with ctrl := p.1, tasks := removeTask m.tasks tid, trace := m.trace ++ p.2 }
    | _ => m

/-- One run of the load-attempt procedure scheduled without interleaving:
the notification spawns it and each of its awaited engine calls resolves
before any other event runs; `loaded` is the engine's answer to the
teardown's status query. -/
def microUninterruptedStart (ap loaded : Bool) (a : Nat) (m : MicroMachine) :
    MicroMachine :=
  ([MicroEv.notify a, MicroEv.resumeStatus m.nextTid loaded]
    ++ (if loaded then [MicroEv.resumeStop m.nextTid] else [])
    ++ [MicroEv.resumeUnload m.nextTid]).foldl (microStep ap) m

/-- Fine-grained system at the moment session 0 is superseded: resource a
was requested (its load is in flight on session 0), then resource b was
requested, so the pending slot holds b and the interception occupies
session 0's status slot. The prelude consists of the two synchronous
effect bodies and the first load call, which involve no teardown
suspension, so the coarse machine computes it faithfully; the original
load's own continuation is not scheduled in the runs below. -/
def c6MicroStart : MicroMachine :=
  { ctrl := (runEvents false initMachine
      [Ev.request (some (AudioResource.stream "a")) false,
       Ev.request (some (AudioResource.stream "b")) false]).ctrl,
    trace := (runEvents false initMachine
      [Ev.request (some (AudioResource.stream "a")) false,
       Ev.request (some (AudioResource.stream "b")) false]).trace }

/-- Adversarial but source-realizable schedule: a first notification from
session 0 (its load completing) spawns run 0; the engine answers run 0's
status query (loaded) and run 0 issues stop; the stop-triggered status
update is delivered to session 0's never-removed interception and spawns
run 1; the engine answers run 1's status query and run 1 issues stop; both
stops resolve, so both runs issue unload on session 0 (run 1 re-reads
`audioObject.current`, which run 0 has not yet cleared); run 0's unload
resolves first, run 0 creates session 1 and issues its load; run 1's
unload then resolves, run 1 clears the refs — clobbering session 1 — and
creates session 2 and issues a second load while session 1 is still
loaded. -/
def c6MicroEvents : List MicroEv :=
  [MicroEv.notify 0,
   MicroEv.resumeStatus 0 true,
   MicroEv.notify 0,
   MicroEv.resumeStatus 1 true,
   MicroEv.resumeStop 0,
   MicroEv.resumeStop 1,
   MicroEv.resumeUnload 0,
   MicroEv.resumeUnload 1]

/-- System after the adversarial schedule. -/
def c6MicroRun : MicroMachine := c6MicroEvents.foldl (microStep false) c6MicroStart

/-- Fine-grained system holding one superseded session, for the
uninterrupted-run theorem. -/
def c6MicroWitness : MicroMachine :=
  { ctrl := { nextSid := 1, audioObject := some 0, isLoadingAudio := true,
              isReadyForNextResource := false,
              nextAudioResource := some (AudioResource.stream "w"),
              statusHandlers := [(0, StatusHandler.interception)] } }

/-- Reflexivity of the resource equivalence on present descriptors. -/
theorem checkSameAudioResources_refl (r : AudioResource) :
    checkSameAudioResources (some r) (some r) = true := by
  cases r <;> simp [checkSameAudioResources]

/-- Symmetry of the resource equivalence. -/
theorem checkSameAudioResources_symm (a b : Option AudioResource) :
    checkSameAudioResources a b = checkSameAudioResources b a := by
  rcases a with _ | ra
  · rcases b with _ | rb
    · rfl
    · cases rb <;> rfl
  · rcases b with _ | rb
    · cases ra <;> rfl
    · cases ra <;> cases rb <;> simp only [checkSameAudioResources] <;>
        exact decide_eq_decide.mpr eq_comm

/-- C9: the resource-equivalence function is reflexive on every present
descriptor, symmetric, false whenever either argument is absent, compares
streaming descriptors by uri value, and never relates two local-file
handles with distinct identities, even when their payloads agree. -/
theorem c9_resource_equivalence :
    (∀ r : AudioResource, checkSameAudioResources (some r) (some r) = true) ∧
    (∀ a b : Option AudioResource,
      checkSameAudioResources a b = checkSameAudioResources b a) ∧
    (∀ b : Option AudioResource, checkSameAudioResources none b = false) ∧
    (∀ a : Option AudioResource, checkSameAudioResources a none = false) ∧
    (∀ u v : String,
      checkSameAudioResources (some (AudioResource.stream u))
        (some (AudioResource.stream v)) = decide (u = v)) ∧
    (∀ i j : Nat, ∀ p q : String, i ≠ j →
      checkSameAudioResources (some (AudioResource.localFile i p))
        (some (AudioResource.localFile j q)) = false) := by
  refine ⟨checkSameAudioResources_refl, checkSameAudioResources_symm, ?_, ?_, ?_, ?_⟩
  · intro b; rcases b with _ | rb <;> rfl
  · intro a; rcases a with _ | ra
    · rfl
    · cases ra <;> rfl
  · intro u v; rfl
  · intro i j p q h
    simp [checkSameAudioResources, h]

/-- Witness for C9 at concrete inputs: two local-file handles with equal
payloads but distinct identities are not equivalent. -/
theorem c9_resource_equivalence_witness :
    checkSameAudioResources (some (AudioResource.localFile 0 "song"))
      (some (AudioResource.localFile 1 "song")) = false :=
  c9_resource_equivalence.2.2.2.2.2 0 1 "song" "song" (by decide)

/-- C3: for every non-negative position, `seek` performs no engine call
when no session exists, and forwards the position to the session when one
exists. -/
theorem c3_seek_guard (s : CtrlState) (positionMs : Int) (hpos : 0 ≤ positionMs) :
    (s.audioObject = none → seek s positionMs = []) ∧
    (∀ sid : Nat, s.audioObject = some sid →
      seek s positionMs = [EngineCall.setPosition sid positionMs]) := by
  constructor
  · intro h; simp [seek, h]
  · intro sid h; simp [seek, h]

/-- Witness for C3: seeking to 3 ms on a fresh controller issues no call. -/
theorem c3_seek_guard_witness : seek ({} : CtrlState) 3 = [] :=
  (c3_seek_guard ({} : CtrlState) 3 (by decide)).1 rfl

/-- C5 counterexample: when the engine reports a duration of exactly 0,
the forwarded time update carries durationMillis 0 — the claimed "never 0"
is false (the fallback to 1 applies only to an absent or NaN duration). -/
theorem c5_counterexample :
    onPlaybackStatusUpdateTimeProjection zeroDurationStatus
      = some { positionMillis := 5, durationMillis := 0, remainingMillis := -5 } ∧
    ¬ (∀ (st : AVPlaybackStatus) (t : PlaybackTimeUpdate),
        onPlaybackStatusUpdateTimeProjection st = some t → t.durationMillis ≠ 0) := by
  constructor
  · decide
  · intro h
    exact h zeroDurationStatus
      { positionMillis := 5, durationMillis := 0, remainingMillis := -5 }
      (by decide) rfl

/-- C5 amended: every forwarded time update satisfies
remaining = duration - position; the position defaults to 0 when absent;
the duration falls back to 1 when absent or NaN (so it is never NaN, but
it can be 0 when the engine reports 0); updates are forwarded only for
loaded statuses. -/
theorem c5_time_projection (st : AVPlaybackStatus) (t : PlaybackTimeUpdate)
    (h : onPlaybackStatusUpdateTimeProjection st = some t) :
    t.remainingMillis = t.durationMillis - t.positionMillis ∧
    (st.positionMillis = none → t.positionMillis = 0) ∧
    ((st.durationMillis = none ∨ st.durationMillis = some JsNum.nan) →
      t.durationMillis = 1) ∧
    st.isLoaded = true := by
  unfold onPlaybackStatusUpdateTimeProjection at h
  split at h
  case isTrue hL =>
    injection h with h1
    subst h1
    refine ⟨rfl, ?_, ?_, hL⟩
    · intro hp; simp [hp]
    · intro hd
      rcases hd with hd | hd <;> simp [resolveDurationMillis, hd]
  case isFalse hL =>
    exact absurd h (by simp)

/-- Witness for C5 amended at a loaded status with both fields absent. -/
theorem c5_time_projection_witness :
    c5WitnessUpdate.remainingMillis
        = c5WitnessUpdate.durationMillis - c5WitnessUpdate.positionMillis ∧
    (c5WitnessStatus.positionMillis = none → c5WitnessUpdate.positionMillis = 0) ∧
    ((c5WitnessStatus.durationMillis = none ∨
        c5WitnessStatus.durationMillis = some JsNum.nan) →
      c5WitnessUpdate.durationMillis = 1) ∧
    c5WitnessStatus.isLoaded = true :=
  c5_time_projection c5WitnessStatus c5WitnessUpdate (by decide)

/-- C1: the settings destructuring in the typed hook resolves autoPlay to
false even when the caller passes autoPlay true — `Object.assign` writes
the defaults object over the caller's settings — so the successful-load
continuation never sets the playing intent; the untyped variant's spread
merge (and the README) show the intended resolution is true. The last two
conjuncts show the continuation would set the intent under flag true and
leaves it false under the flag the typed merge actually produces. -/
theorem c1_autoplay_code_bug :
    tsResolvedAutoPlay (some { autoPlay := some true }) = false ∧
    tsResolvedAutoPlay none = false ∧
    jsComponentSettingsAutoPlay { autoPlay := some true } = true ∧
    ((createAudioObjectFromQueueFinish true 0 true {} {}).1).isPlaying = true ∧
    ((createAudioObjectFromQueueFinish
        (tsResolvedAutoPlay (some { autoPlay := some true })) 0 true {} {}).1).isPlaying
      = false := by
  decide

/-- C4: after the component unmounts while a load is in flight, the load's
continuation still writes the controller state — current resource, pending
slot, readiness, loading flag and cached status — because the source tests
the truthiness of the `isMounted` function instead of calling it
(`tsMountedGuard` is constantly true). -/
theorem c4_unmounted_write_code_bug :
    c4Unmounted.ctrl.mounted = false ∧
    c4Unmounted.ctrl.isLoadingAudio = true ∧
    c4Unmounted.ctrl.currentAudioResource = none ∧
    c4Unmounted.ctrl.status = none ∧
    c4Resumed.ctrl.mounted = false ∧
    c4Resumed.ctrl.currentAudioResource = some (AudioResource.stream "x") ∧
    c4Resumed.ctrl.nextAudioResource = none ∧
    c4Resumed.ctrl.isLoadingAudio = false ∧
    c4Resumed.ctrl.isReadyForNextResource = true ∧
    c4Resumed.ctrl.status = some { isLoaded := true } ∧
    tsMountedGuard false = true := by
  decide

/-- C7: whatever the outcome of the load call, when the controller is
alive the finally block leaves the queue consistent: the current resource
is set to the pending slot's value, the pending slot is cleared, the queue
is marked ready for the next resource, the loading flag is cleared, and on
failure the playing intent is untouched (autoplay skipped). -/
theorem c7_finally_cleanup (autoPlay : Bool) (sid : Nat) (ok : Bool)
    (loadedStatus : AVPlaybackStatus) (s : CtrlState) (halive : s.mounted = true) :
    ((createAudioObjectFromQueueFinish autoPlay sid ok loadedStatus s).1).currentAudioResource
        = s.nextAudioResource ∧
    ((createAudioObjectFromQueueFinish autoPlay sid ok loadedStatus s).1).nextAudioResource
        = none ∧
    ((createAudioObjectFromQueueFinish autoPlay sid ok loadedStatus s).1).isReadyForNextResource
        = true ∧
    ((createAudioObjectFromQueueFinish autoPlay sid ok loadedStatus s).1).isLoadingAudio
        = false ∧
    (ok = false →
      ((createAudioObjectFromQueueFinish autoPlay sid ok loadedStatus s).1).isPlaying
        = s.isPlaying) := by
  unfold createAudioObjectFromQueueFinish finallyCleanup tsMountedGuard
  cases ok <;> cases autoPlay <;> simp

/-- Witness for C7 on a fresh controller with a failing load. -/
theorem c7_finally_cleanup_witness :
    ((createAudioObjectFromQueueFinish false 0 false {} {}).1).currentAudioResource
        = ({} : CtrlState).nextAudioResource ∧
    ((createAudioObjectFromQueueFinish false 0 false {} {}).1).nextAudioResource = none ∧
    ((createAudioObjectFromQueueFinish false 0 false {} {}).1).isReadyForNextResource = true ∧
    ((createAudioObjectFromQueueFinish false 0 false {} {}).1).isLoadingAudio = false ∧
    (false = false →
      ((createAudioObjectFromQueueFinish false 0 false {} {}).1).isPlaying
        = ({} : CtrlState).isPlaying) :=
  c7_finally_cleanup false 0 false {} {} rfl

/-- Characterization of a load attempt started with no existing session. -/
theorem createAudioObjectFromQueueStart_none (s : CtrlState) (old : Bool)
    (h : s.audioObject = none) :
    (createAudioObjectFromQueueStart s old).calls
        = [EngineCall.loadSound s.nextSid s.nextAudioResource] ∧
    (createAudioObjectFromQueueStart s old).sid = s.nextSid ∧
    (createAudioObjectFromQueueStart s old).state.audioObject = some s.nextSid ∧
    (createAudioObjectFromQueueStart s old).state.nextAudioResource = s.nextAudioResource ∧
    (createAudioObjectFromQueueStart s old).state.statusHandlers
        = setHandler s.statusHandlers s.nextSid StatusHandler.forwarding ∧
    (createAudioObjectFromQueueStart s old).state.metadataHandlers
        = s.nextSid :: s.metadataHandlers := by
  simp [createAudioObjectFromQueueStart, unload, h]

/-- Characterization of a load attempt started while session `a` exists:
the teardown calls for `a` come first, the load call for the fresh session
comes last and reads the pending slot. -/
theorem createAudioObjectFromQueueStart_some (s : CtrlState) (old : Bool) (a : Nat)
    (h : s.audioObject = some a) :
    (createAudioObjectFromQueueStart s old).calls
        = [EngineCall.getStatus a] ++ (if old then [EngineCall.stop a] else [])
          ++ [EngineCall.unloadSound a,
              EngineCall.loadSound s.nextSid s.nextAudioResource] ∧
    (createAudioObjectFromQueueStart s old).sid = s.nextSid ∧
    (createAudioObjectFromQueueStart s old).state.audioObject = some s.nextSid ∧
    (createAudioObjectFromQueueStart s old).state.nextAudioResource = s.nextAudioResource ∧
    (createAudioObjectFromQueueStart s old).state.statusHandlers
        = setHandler s.statusHandlers s.nextSid StatusHandler.forwarding ∧
    (createAudioObjectFromQueueStart s old).state.metadataHandlers
        = s.nextSid :: s.metadataHandlers := by
  cases old <;> simp [createAudioObjectFromQueueStart, unload, h, tsMountedGuard]

/-- Splitting the bounded-liveness check over an appended trace. -/
theorem aliveBoundedFrom_append (acc : List Nat) (t c : List EngineCall) :
    aliveBoundedFrom acc (t ++ c)
      = (aliveBoundedFrom acc t && aliveBoundedFrom (t.foldl aliveStep acc) c) := by
  induction t generalizing acc with
  | nil => simp [aliveBoundedFrom]
  | cons x xs ih => simp [aliveBoundedFrom, ih, Bool.and_assoc]

/-- Live-session set after an appended trace. -/
theorem aliveAfter_append (t c : List EngineCall) :
    aliveAfter (t ++ c) = c.foldl aliveStep (aliveAfter t) := by
  simp [aliveAfter, List.foldl_append]

/-- Starting a load attempt preserves bounded liveness: the teardown of
the referenced session is observed before the fresh load call, so along
the emitted calls at most one session is ever live, and exactly the fresh
session is live afterwards. -/
theorem createAudioObjectFromQueueStart_alive (tr : List EngineCall) (s : CtrlState)
    (old : Bool)
    (hb : aliveBoundedFrom [] tr = true)
    (ha : (s.audioObject = none ∧ aliveAfter tr = []) ∨
          (∃ a, s.audioObject = some a ∧
            (aliveAfter tr = [a] ∨ aliveAfter tr = []))) :
    aliveBoundedFrom [] (tr ++ (createAudioObjectFromQueueStart s old).calls) = true ∧
    (createAudioObjectFromQueueStart s old).state.audioObject
        = some (createAudioObjectFromQueueStart s old).sid ∧
    aliveAfter (tr ++ (createAudioObjectFromQueueStart s old).calls)
        = [(createAudioObjectFromQueueStart s old).sid] := by
  rcases ha with ⟨h, hal⟩ | ⟨a, h, hal⟩
  · obtain ⟨hc, hsid, hobj, -, -, -⟩ := createAudioObjectFromQueueStart_none s old h
    refine ⟨?_, by rw [hobj, hsid], ?_⟩
    · rw [hc, aliveBoundedFrom_append, hb]
      show (true && aliveBoundedFrom (aliveAfter tr) _) = true
      rw [hal]
      simp [aliveBoundedFrom, aliveStep]
    · rw [hc, hsid, aliveAfter_append, hal]
      simp [aliveStep]
  · obtain ⟨hc, hsid, hobj, -, -, -⟩ := createAudioObjectFromQueueStart_some s old a h
    refine ⟨?_, by rw [hobj, hsid], ?_⟩
    · rw [hc, aliveBoundedFrom_append, hb]
      show (true && aliveBoundedFrom (aliveAfter tr) _) = true
      rcases hal with hal | hal <;> rw [hal] <;> cases old <;>
        simp [aliveBoundedFrom, aliveStep]
    · rw [hc, hsid, aliveAfter_append]
      rcases hal with hal | hal <;> rw [hal] <;> cases old <;>
        simp [aliveStep]

/-- The resource-change effect only touches the pending slot, the
readiness flag and the callback slots. -/
theorem resourceChangeEffect_state (r : Option AudioResource) (st : CtrlState) :
    ((resourceChangeEffect r st).1).audioObject = st.audioObject ∧
    ((resourceChangeEffect r st).1).isLoadingAudio = st.isLoadingAudio ∧
    ((resourceChangeEffect r st).1).nextSid = st.nextSid ∧
    ((resourceChangeEffect r st).1).currentAudioResource = st.currentAudioResource ∧
    ((resourceChangeEffect r st).1).mounted = st.mounted ∧
    ((resourceChangeEffect r st).1).status = st.status ∧
    ((resourceChangeEffect r st).1).metadataHandlers = st.metadataHandlers := by
  unfold resourceChangeEffect
  dsimp only
  (repeat' split) <;> simp

/-- The load continuation only touches the queue flags, the resources,
the cached status and the playing intent. -/
theorem createAudioObjectFromQueueFinish_state (ap : Bool) (sid : Nat) (ok : Bool)
    (ls : AVPlaybackStatus) (s : CtrlState) :
    ((createAudioObjectFromQueueFinish ap sid ok ls s).1).audioObject = s.audioObject ∧
    ((createAudioObjectFromQueueFinish ap sid ok ls s).1).nextSid = s.nextSid ∧
    ((createAudioObjectFromQueueFinish ap sid ok ls s).1).statusHandlers
        = s.statusHandlers ∧
    ((createAudioObjectFromQueueFinish ap sid ok ls s).1).metadataHandlers
        = s.metadataHandlers ∧
    ((createAudioObjectFromQueueFinish ap sid ok ls s).1).mounted = s.mounted := by
  unfold createAudioObjectFromQueueFinish finallyCleanup tsMountedGuard
  cases ok <;> cases ap <;> simp

/-- Engine calls emitted by the load continuation. -/
theorem createAudioObjectFromQueueFinish_calls (ap : Bool) (sid : Nat) (ok : Bool)
    (ls : AVPlaybackStatus) (s : CtrlState) :
    (createAudioObjectFromQueueFinish ap sid ok ls s).2
      = if ok then [EngineCall.getStatus sid] else [] := by
  cases ok <;> simp [createAudioObjectFromQueueFinish]

/-- Every event preserves the machine-level liveness safety property. -/
theorem stepEv_alive (ap : Bool) (m : Machine) (e : Ev)
    (h : MachineAliveOk m) : MachineAliveOk (stepEv ap m e) := by
  obtain ⟨hb, ha⟩ := h
  cases e with
  | request r old =>
    rcases heff : resourceChangeEffect r m.ctrl with ⟨s, o⟩
    have hpres := resourceChangeEffect_state r m.ctrl
    rw [heff] at hpres
    cases o with
    | startedLoad =>
      have ha2 : (s.audioObject = none ∧ aliveAfter m.trace = []) ∨
          (∃ a, s.audioObject = some a ∧
            (aliveAfter m.trace = [a] ∨ aliveAfter m.trace = [])) := by
        rw [hpres.1]; exact ha
      have key := createAudioObjectFromQueueStart_alive m.trace s old hb ha2
      simp only [stepEv, heff]
      exact ⟨key.1, Or.inr ⟨_, key.2.1, Or.inl key.2.2⟩⟩
    | noAction =>
      simp only [stepEv, heff]
      refine ⟨hb, ?_⟩; rw [hpres.1]; exact ha
    | queuedOnly =>
      simp only [stepEv, heff]
      refine ⟨hb, ?_⟩; rw [hpres.1]; exact ha
    | interceptInstalled sid =>
      simp only [stepEv, heff]
      refine ⟨hb, ?_⟩; rw [hpres.1]; exact ha
    | interceptNoSession =>
      simp only [stepEv, heff]
      refine ⟨hb, ?_⟩; rw [hpres.1]; exact ha
  | resumeLoad sid ok ls =>
    simp only [stepEv]
    split
    · have hfin := createAudioObjectFromQueueFinish_state ap sid ok ls m.ctrl
      have hcalls := createAudioObjectFromQueueFinish_calls ap sid ok ls m.ctrl
      have hlen : (aliveAfter m.trace).length ≤ 1 := by
        rcases ha with ⟨-, hal⟩ | ⟨a, -, hal | hal⟩ <;> rw [hal] <;> simp
      have hsame : aliveAfter (m.trace ++ (createAudioObjectFromQueueFinish ap sid ok ls m.ctrl).2)
          = aliveAfter m.trace := by
        rw [aliveAfter_append, hcalls]; cases ok <;> simp [aliveStep]
      refine ⟨?_, ?_⟩
      · rw [aliveBoundedFrom_append, hb]
        show (true && aliveBoundedFrom (aliveAfter m.trace) _) = true
        rw [hcalls]; cases ok <;> simp [aliveBoundedFrom, aliveStep, hlen]
      · rw [hsame, hfin.1]
        exact ha
    · exact ⟨hb, ha⟩
  | notifyStatus sid st old =>
    cases hh : getHandler m.ctrl.statusHandlers sid with
    | none => simp only [stepEv, hh]; exact ⟨hb, ha⟩
    | some hdl =>
      cases hdl with
      | forwarding => simp only [stepEv, hh]; exact ⟨hb, ha⟩
      | interception =>
        have key := createAudioObjectFromQueueStart_alive m.trace m.ctrl old hb ha
        simp only [stepEv, hh]
        exact ⟨key.1, Or.inr ⟨_, key.2.1, Or.inl key.2.2⟩⟩
  | notifyMetadata sid meta =>
    simp only [stepEv]
    split <;> exact ⟨hb, ha⟩
  | unmount =>
    exact ⟨hb, ha⟩

/-- Liveness safety along any event sequence. -/
theorem runEvents_alive (ap : Bool) (m : Machine) (evs : List Ev)
    (h : MachineAliveOk m) : MachineAliveOk (runEvents ap m evs) := by
  induction evs generalizing m with
  | nil => exact h
  | cons e es ih => exact ih (stepEv ap m e) (stepEv_alive ap m e h)

/-- A run id unused in the task list finds the continuation appended for
it. -/
theorem getTask_append_fresh (ts : List (Nat × ProcCont)) (tid : Nat) (c : ProcCont)
    (h : getTask ts tid = none) :
    getTask (ts ++ [(tid, c)]) tid = some c := by
  induction ts with
  | nil => simp [getTask, List.find?]
  | cons p ps ih =>
    cases hpt : (p.1 == tid) with
    | false =>
      have h2 : getTask ps tid = none := by
        simpa [getTask, List.find?, hpt] using h
      simpa [getTask, List.find?, hpt] using ih h2
    | true =>
      exfalso
      simp [getTask, List.find?, hpt] at h

/-- Re-parking a run stores its new continuation. -/
theorem getTask_setTask_eq (ts : List (Nat × ProcCont)) (tid : Nat) (c : ProcCont) :
    getTask (setTask ts tid c) tid = some c := by
  simp [getTask, setTask, List.find?]

/-- C6 counterexample: from the reachable configuration in which session 0
is superseded (interception installed, resource b pending), the schedule
`c6MicroEvents` — realizable because the interception is never removed, so
the status update triggered by the first re-run's own stop call spawns a
second re-run mid-teardown — ends with sessions 1 and 2 both live: the
load call for session 2 is issued although session 1's teardown was never
even initiated (no unload of session 1 occurs anywhere in the trace), so
"teardown completes before the next load call" and "at most one session
alive at any instant" both fail in this execution. -/
theorem c6_counterexample :
    getHandler c6MicroStart.ctrl.statusHandlers 0 = some StatusHandler.interception ∧
    c6MicroRun.trace
      = [EngineCall.loadSound 0 (some (AudioResource.stream "a")),
         EngineCall.getStatus 0, EngineCall.stop 0,
         EngineCall.getStatus 0, EngineCall.stop 0,
         EngineCall.unloadSound 0, EngineCall.unloadSound 0,
         EngineCall.loadSound 1 (some (AudioResource.stream "b")),
         EngineCall.loadSound 2 (some (AudioResource.stream "b"))] ∧
    aliveAfter c6MicroRun.trace = [2, 1] ∧
    aliveBoundedFrom [] c6MicroRun.trace = false ∧
    c6MicroRun.trace.contains (EngineCall.unloadSound 1) = false := by
  decide

/-- C6 amended: a single run of the load-attempt procedure, scheduled
without interleaving at the suspension points inside its teardown, always
observes the referenced session's teardown — status query, stop if loaded,
unload — before issuing its own load call; and in every execution in which
no notification re-enters the procedure during a teardown (the schedules
of the coarse event machine, whose events are maximal synchronous
segments), at most one session is live after every prefix of the
engine-call trace. The unrestricted every-execution claim is false (see
the counterexample): a notification delivered at a teardown suspension
point re-enters the never-removed interception and can leave two sessions
live. -/
theorem c6_teardown_per_run (ap loaded : Bool) (m : MicroMachine) (a : Nat)
    (evs : List Ev)
    (hobj : m.ctrl.audioObject = some a)
    (hh : getHandler m.ctrl.statusHandlers a = some StatusHandler.interception)
    (hfresh : getTask m.tasks m.nextTid = none) :
    (microUninterruptedStart ap loaded a m).trace
      = m.trace ++ [EngineCall.getStatus a]
        ++ (if loaded then [EngineCall.stop a] else [])
        ++ [EngineCall.unloadSound a,
            EngineCall.loadSound m.ctrl.nextSid m.ctrl.nextAudioResource] ∧
    aliveBoundedFrom [] ((runEvents ap initMachine evs).trace) = true := by
  constructor
  · cases loaded <;>
    · simp only [microUninterruptedStart, if_true, if_false, List.cons_append,
        List.nil_append, List.foldl_cons, List.foldl_nil]
      simp [microStep, microEnterRun, microCreateAndLoad, hh, hobj,
        getTask_append_fresh m.tasks m.nextTid ProcCont.unloadAwaitStatus hfresh,
        getTask_setTask_eq, List.append_assoc]
  · exact (runEvents_alive ap initMachine evs ⟨rfl, Or.inl ⟨rfl, rfl⟩⟩).1

/-- Witness for C6 amended: an uninterrupted run on a concrete superseded
session, and bounded liveness of a concrete coarse run. -/
theorem c6_teardown_per_run_witness :
    (microUninterruptedStart false true 0 c6MicroWitness).trace
      = c6MicroWitness.trace ++ [EngineCall.getStatus 0]
        ++ (if true then [EngineCall.stop 0] else [])
        ++ [EngineCall.unloadSound 0,
            EngineCall.loadSound c6MicroWitness.ctrl.nextSid
              c6MicroWitness.ctrl.nextAudioResource] ∧
    aliveBoundedFrom [] ((runEvents false initMachine
        [Ev.request (some (AudioResource.stream "w")) false,
         Ev.resumeLoad 0 true { isLoaded := true }]).trace) = true :=
  c6_teardown_per_run false true c6MicroWitness 0
    [Ev.request (some (AudioResource.stream "w")) false,
     Ev.resumeLoad 0 true { isLoaded := true }] rfl (by decide) rfl

/-- An absent first argument is never equivalent to anything. -/
theorem checkSameAudioResources_none_left (b : Option AudioResource) :
    checkSameAudioResources none b = false := by
  rcases b with _ | rb
  · rfl
  · cases rb <;> rfl

/-- While a load is in flight the effect never starts a load itself. -/
theorem resourceChangeEffect_not_started (r : Option AudioResource) (st : CtrlState)
    (h : st.isLoadingAudio = true) :
    (resourceChangeEffect r st).2 ≠ EffectOutcome.startedLoad := by
  unfold resourceChangeEffect
  dsimp only
  (repeat' split) <;> simp_all

/-- While a load is in flight a request event only updates the controller
state: no engine call is issued and no continuation is created. -/
theorem stepEv_request_loading (ap oldA : Bool) (m : Machine) (r : Option AudioResource)
    (h : m.ctrl.isLoadingAudio = true) :
    stepEv ap m (Ev.request r oldA) = { m with ctrl := (resourceChangeEffect r m.ctrl).1 } := by
  have hn := resourceChangeEffect_not_started r m.ctrl h
  rcases he : resourceChangeEffect r m.ctrl with ⟨s, o⟩
  rw [he] at hn
  cases o
  case startedLoad => exact absurd rfl hn
  all_goals simp [stepEv, he]

/-- Folding requests while a load is in flight only folds the effect over
the controller state. -/
theorem runEvents_requests_loading (ap oldA : Bool) (m : Machine) (rs : List AudioResource)
    (h : m.ctrl.isLoadingAudio = true) :
    runEvents ap m (requestEvs rs oldA) = { m with ctrl := applyRequests m.ctrl rs } := by
  induction rs generalizing m with
  | nil => rfl
  | cons r rs ih =>
    show runEvents ap (stepEv ap m (Ev.request (some r) oldA)) (requestEvs rs oldA)
        = { m with ctrl := applyRequests m.ctrl (r :: rs) }
    rw [stepEv_request_loading ap oldA m (some r) h]
    have h2 : (applyRequest m.ctrl r).isLoadingAudio = true := by
      show (resourceChangeEffect (some r) m.ctrl).1.isLoadingAudio = true
      rw [(resourceChangeEffect_state (some r) m.ctrl).2.1]; exact h
    exact ih { m with ctrl := applyRequest m.ctrl r } h2

/-- The effect preserves the session-id counter across any request list. -/
theorem applyRequests_nextSid (rs : List AudioResource) (st : CtrlState) :
    (applyRequests st rs).nextSid = st.nextSid := by
  induction rs generalizing st with
  | nil => rfl
  | cons r rs ih =>
    exact (ih (applyRequest st r)).trans (resourceChangeEffect_state (some r) st).2.2.1

/-- A registration for a different session does not shadow a handler. -/
theorem getHandler_setHandler_ne (hs : List (Nat × StatusHandler)) (s t : Nat)
    (h : StatusHandler) (hne : s ≠ t) :
    getHandler (setHandler hs s h) t = getHandler hs t := by
  have hb : (s == t) = false := beq_eq_false_iff_ne.mpr hne
  simp [getHandler, setHandler, List.find?, hb]

/-- The most recent registration for a session wins. -/
theorem getHandler_setHandler_eq (hs : List (Nat × StatusHandler)) (s : Nat)
    (h : StatusHandler) :
    getHandler (setHandler hs s h) s = some h := by
  simp [getHandler, setHandler, List.find?]

/-- A first effective request during an in-flight load opens the swap
window: the pending slot holds the request, the queue is busy, and the
interception is installed on the in-flight session. -/
theorem inSwapWindow_enter (st : CtrlState) (a : Nat) (r : AudioResource)
    (hdef : isResourceDefined (some r) = true)
    (hcur : st.currentAudioResource = none)
    (hready : st.isReadyForNextResource = true)
    (hload : st.isLoadingAudio = true)
    (hobj : st.audioObject = some a)
    (hfresh : checkSameAudioResources st.nextAudioResource (some r) = false) :
    InSwapWindow a r (applyRequest st r) := by
  have heq : applyRequest st r
      = { st with nextAudioResource := some r,
                  isReadyForNextResource := false,
                  statusHandlers := setHandler st.statusHandlers a StatusHandler.interception } := by
    unfold applyRequest resourceChangeEffect
    dsimp only
    simp [hdef, hcur, hready, hload, hobj, hfresh, checkSameAudioResources_none_left]
  rw [heq]
  exact ⟨hcur, rfl, hload, hobj, getHandler_setHandler_eq st.statusHandlers a _ |>.trans rfl,
    checkSameAudioResources_refl r⟩

/-- Later requests during the swap window keep the window open and keep
the pending slot equivalent to the most recent request. -/
theorem inSwapWindow_stay (st : CtrlState) (a : Nat) (l r : AudioResource)
    (hw : InSwapWindow a l st) (hdef : isResourceDefined (some r) = true) :
    InSwapWindow a r (applyRequest st r) := by
  obtain ⟨hcur, hready, hload, hobj, hh, hnext⟩ := hw
  by_cases hdup : checkSameAudioResources st.nextAudioResource (some r) = true
  · have heq : applyRequest st r = st := by
      unfold applyRequest resourceChangeEffect
      dsimp only
      simp [hdef, hcur, hdup, checkSameAudioResources_none_left]
    rw [heq]
    exact ⟨hcur, hready, hload, hobj, hh, hdup⟩
  · have heq : applyRequest st r = { st with nextAudioResource := some r } := by
      unfold applyRequest resourceChangeEffect
      dsimp only
      simp [hdef, hcur, hdup, hready, checkSameAudioResources_none_left]
    rw [heq]
    exact ⟨hcur, hready, hload, hobj, hh, checkSameAudioResources_refl r⟩

/-- The swap window absorbs any list of defined requests, tracking the
last one. -/
theorem inSwapWindow_fold (st : CtrlState) (a : Nat) (l : AudioResource)
    (rs : List AudioResource) (hw : InSwapWindow a l st)
    (hdefs : ∀ r ∈ rs, isResourceDefined (some r) = true) :
    InSwapWindow a (rs.getLastD l) (applyRequests st rs) := by
  induction rs generalizing st l with
  | nil => exact hw
  | cons r rs ih =>
    have h1 : InSwapWindow a r (applyRequest st r) :=
      inSwapWindow_stay st a l r hw (hdefs r (by simp))
    have h2 := ih (applyRequest st r) r h1 (fun x hx => hdefs x (by simp [hx]))
    rw [List.getLastD_cons]
    exact h2

/-- C2 counterexample run: request a; request b while a's load is in
flight; the superseded load's own continuation resumes first and its
finally block clears the pending slot; the interception then fires and the
next load call passes none (null) to the engine — not b, the last resource
requested while the load was in flight. -/
theorem c2_counterexample :
    c2Run.trace
      = [EngineCall.loadSound 0 (some (AudioResource.stream "a")),
         EngineCall.getStatus 0,
         EngineCall.getStatus 0, EngineCall.stop 0, EngineCall.unloadSound 0,
         EngineCall.loadSound 1 none] ∧
    (c2Run.trace.filter isLoadCall).getLast?
      = some (EngineCall.loadSound 1 none) ∧
    EngineCall.loadSound 1 none
      ≠ EngineCall.loadSound 1 (some (AudioResource.stream "b")) := by
  decide

/-- C2 amended: requests arriving while a load is in flight issue no load
call and collapse into the single pending slot, which always holds (an
equivalent of) the last requested resource; when the completion
notification reaches the interception before the superseded load's cleanup
has cleared the slot, the re-load tears the superseded session down and
issues exactly one load call carrying the pending slot's value, i.e. the
last requested resource. -/
theorem c2_window_last_request (ap oldA oldB : Bool) (m : Machine) (a : Nat)
    (r1 : AudioResource) (rs : List AudioResource) (st : AVPlaybackStatus)
    (hdef1 : isResourceDefined (some r1) = true)
    (hdefs : ∀ r ∈ rs, isResourceDefined (some r) = true)
    (hcur : m.ctrl.currentAudioResource = none)
    (hready : m.ctrl.isReadyForNextResource = true)
    (hloading : m.ctrl.isLoadingAudio = true)
    (hobj : m.ctrl.audioObject = some a)
    (hfresh : checkSameAudioResources m.ctrl.nextAudioResource (some r1) = false) :
    (runEvents ap m (requestEvs (r1 :: rs) oldA)).trace = m.trace ∧
    checkSameAudioResources
        (runEvents ap m (requestEvs (r1 :: rs) oldA)).ctrl.nextAudioResource
        (some (rs.getLastD r1)) = true ∧
    (stepEv ap (runEvents ap m (requestEvs (r1 :: rs) oldA))
        (Ev.notifyStatus a st oldB)).trace
      = m.trace ++ [EngineCall.getStatus a]
        ++ (if oldB then [EngineCall.stop a] else [])
        ++ [EngineCall.unloadSound a,
            EngineCall.loadSound m.ctrl.nextSid
              (runEvents ap m (requestEvs (r1 :: rs) oldA)).ctrl.nextAudioResource] := by
  have hrun := runEvents_requests_loading ap oldA m (r1 :: rs) hloading
  have hwin : InSwapWindow a (rs.getLastD r1) (applyRequests m.ctrl (r1 :: rs)) := by
    have h1 := inSwapWindow_enter m.ctrl a r1 hdef1 hcur hready hloading hobj hfresh
    exact inSwapWindow_fold (applyRequest m.ctrl r1) a r1 rs h1 hdefs
  obtain ⟨hwcur, hwready, hwload, hwobj, hwh, hwnext⟩ := hwin
  refine ⟨by rw [hrun], by rw [hrun]; exact hwnext, ?_⟩
  rw [hrun]
  dsimp only
  simp only [stepEv, hwh]
  obtain ⟨hc, -, -, -, -, -⟩ :=
    createAudioObjectFromQueueStart_some (applyRequests m.ctrl (r1 :: rs)) oldB a hwobj
  rw [hc, applyRequests_nextSid]
  simp [List.append_assoc]

/-- C8 counterexample run: with session 0 superseded (interception
installed) and b pending, the first notification from session 0 triggers a
load attempt (teardown of 0, load of b on session 1); the interception
stays installed on session 0, and a second notification from session 0
triggers the load-attempt procedure again (a third load call) — the
interception is not one-shot. -/
theorem c8_counterexample :
    getHandler c8AfterFirst.ctrl.statusHandlers 0 = some StatusHandler.interception ∧
    c8AfterFirst.trace.filter isLoadCall
      = [EngineCall.loadSound 0 (some (AudioResource.stream "a")),
         EngineCall.loadSound 1 (some (AudioResource.stream "b"))] ∧
    c8AfterSecond.trace.filter isLoadCall
      = [EngineCall.loadSound 0 (some (AudioResource.stream "a")),
         EngineCall.loadSound 1 (some (AudioResource.stream "b")),
         EngineCall.loadSound 2 (some (AudioResource.stream "b"))] := by
  decide

/-- C8 amended: a status notification delivered to a session whose
callback slot holds the interception runs the load-attempt procedure
(whose final emitted call loads the pending slot's resource on a fresh
session), and the interception remains installed on the superseded session
afterwards — it is never removed, so every further notification from that
session triggers the procedure again; it stops firing only because the
first re-run stops and unloads the superseded session. -/
theorem c8_interception_persists (ap oldB : Bool) (m : Machine) (a : Nat)
    (st : AVPlaybackStatus)
    (hh : getHandler m.ctrl.statusHandlers a = some StatusHandler.interception)
    (hne : m.ctrl.nextSid ≠ a) :
    (stepEv ap m (Ev.notifyStatus a st oldB)).trace
        = m.trace ++ (createAudioObjectFromQueueStart m.ctrl oldB).calls ∧
    (createAudioObjectFromQueueStart m.ctrl oldB).calls.getLast?
        = some (EngineCall.loadSound m.ctrl.nextSid m.ctrl.nextAudioResource) ∧
    getHandler (stepEv ap m (Ev.notifyStatus a st oldB)).ctrl.statusHandlers a
        = some StatusHandler.interception := by
  refine ⟨by simp [stepEv, hh], ?_, ?_⟩
  · rcases hobj : m.ctrl.audioObject with _ | b
    · obtain ⟨hc, -, -, -, -, -⟩ := createAudioObjectFromQueueStart_none m.ctrl oldB hobj
      rw [hc]; rfl
    · obtain ⟨hc, -, -, -, -, -⟩ := createAudioObjectFromQueueStart_some m.ctrl oldB b hobj
      rw [hc]; cases oldB <;> simp
  · simp only [stepEv, hh]
    rcases hobj : m.ctrl.audioObject with _ | b
    · obtain ⟨-, -, -, -, hhs, -⟩ := createAudioObjectFromQueueStart_none m.ctrl oldB hobj
      rw [hhs, getHandler_setHandler_ne _ _ _ _ hne]
      exact hh
    · obtain ⟨-, -, -, -, hhs, -⟩ := createAudioObjectFromQueueStart_some m.ctrl oldB b hobj
      rw [hhs, getHandler_setHandler_ne _ _ _ _ hne]
      exact hh

/-- Witness for C8 amended on a concrete superseded session. -/
theorem c8_interception_persists_witness :
    (stepEv false c8WitnessMachine (Ev.notifyStatus 0 { isLoaded := true } true)).trace
        = c8WitnessMachine.trace
          ++ (createAudioObjectFromQueueStart c8WitnessMachine.ctrl true).calls ∧
    (createAudioObjectFromQueueStart c8WitnessMachine.ctrl true).calls.getLast?
        = some (EngineCall.loadSound c8WitnessMachine.ctrl.nextSid
            c8WitnessMachine.ctrl.nextAudioResource) ∧
    getHandler (stepEv false c8WitnessMachine
        (Ev.notifyStatus 0 { isLoaded := true } true)).ctrl.statusHandlers 0
        = some StatusHandler.interception :=
  c8_interception_persists false true c8WitnessMachine 0 { isLoaded := true }
    (by decide) (by decide)

/-- C10: while the interception occupies a superseded session's status
slot, a status notification from that session reaches neither the public
status observer nor the time-update observer; the load attempt it triggers
registers the forwarding callback and the metadata callback on the fresh
session only; and a metadata notification from the superseded session is
still stored (its metadata callback was never replaced). -/
theorem c10_superseded_isolation (ap oldB : Bool) (m : Machine) (a : Nat)
    (st : AVPlaybackStatus) (meta : Nat)
    (hh : getHandler m.ctrl.statusHandlers a = some StatusHandler.interception)
    (hm : m.ctrl.metadataHandlers.contains a = true) :
    (stepEv ap m (Ev.notifyStatus a st oldB)).observerStatusForwards
        = m.observerStatusForwards ∧
    (stepEv ap m (Ev.notifyStatus a st oldB)).observerTimeForwards
        = m.observerTimeForwards ∧
    getHandler (stepEv ap m (Ev.notifyStatus a st oldB)).ctrl.statusHandlers
        m.ctrl.nextSid = some StatusHandler.forwarding ∧
    (stepEv ap m (Ev.notifyStatus a st oldB)).ctrl.metadataHandlers.contains
        m.ctrl.nextSid = true ∧
    (stepEv ap m (Ev.notifyMetadata a meta)).ctrl.metadata = some meta := by
  have hm2 : a ∈ m.ctrl.metadataHandlers := by simpa using hm
  refine ⟨by simp [stepEv, hh], by simp [stepEv, hh], ?_, ?_, by simp [stepEv, hm2]⟩
  · simp only [stepEv, hh]
    rcases hobj : m.ctrl.audioObject with _ | b
    · obtain ⟨-, -, -, -, hhs, -⟩ := createAudioObjectFromQueueStart_none m.ctrl oldB hobj
      rw [hhs]
      exact getHandler_setHandler_eq m.ctrl.statusHandlers m.ctrl.nextSid _
    · obtain ⟨-, -, -, -, hhs, -⟩ := createAudioObjectFromQueueStart_some m.ctrl oldB b hobj
      rw [hhs]
      exact getHandler_setHandler_eq m.ctrl.statusHandlers m.ctrl.nextSid _
  · simp only [stepEv, hh]
    rcases hobj : m.ctrl.audioObject with _ | b
    · obtain ⟨-, -, -, -, -, hms⟩ := createAudioObjectFromQueueStart_none m.ctrl oldB hobj
      rw [hms]; simp
    · obtain ⟨-, -, -, -, -, hms⟩ := createAudioObjectFromQueueStart_some m.ctrl oldB b hobj
      rw [hms]; simp

/-- Witness for C10 on a concrete superseded session. -/
theorem c10_superseded_isolation_witness :
    (stepEv false c10WitnessMachine
        (Ev.notifyStatus 0 zeroDurationStatus true)).observerStatusForwards
        = c10WitnessMachine.observerStatusForwards ∧
    (stepEv false c10WitnessMachine
        (Ev.notifyStatus 0 zeroDurationStatus true)).observerTimeForwards
        = c10WitnessMachine.observerTimeForwards ∧
    getHandler (stepEv false c10WitnessMachine
        (Ev.notifyStatus 0 zeroDurationStatus true)).ctrl.statusHandlers
        c10WitnessMachine.ctrl.nextSid = some StatusHandler.forwarding ∧
    (stepEv false c10WitnessMachine
        (Ev.notifyStatus 0 zeroDurationStatus true)).ctrl.metadataHandlers.contains
        c10WitnessMachine.ctrl.nextSid = true ∧
    (stepEv false c10WitnessMachine (Ev.notifyMetadata 0 7)).ctrl.metadata = some 7 :=
  c10_superseded_isolation false true c10WitnessMachine 0 zeroDurationStatus 7
    (by decide) (by decide)

/-- Witness for C2 amended: with a's load in flight, requests for b then c
issue no engine call; the interception-first completion loads exactly the
pending slot, which is equivalent to c, the last requested resource. -/
theorem c2_window_last_request_witness :
    (runEvents false c2WitnessMachine
        (requestEvs [AudioResource.stream "b", AudioResource.stream "c"] false)).trace
      = c2WitnessMachine.trace ∧
    checkSameAudioResources
        (runEvents false c2WitnessMachine
          (requestEvs [AudioResource.stream "b", AudioResource.stream "c"]
            false)).ctrl.nextAudioResource
        (some ([AudioResource.stream "c"].getLastD (AudioResource.stream "b"))) = true ∧
    (stepEv false
        (runEvents false c2WitnessMachine
          (requestEvs [AudioResource.stream "b", AudioResource.stream "c"] false))
        (Ev.notifyStatus 0 { isLoaded := true } true)).trace
      = c2WitnessMachine.trace ++ [EngineCall.getStatus 0]
        ++ (if true then [EngineCall.stop 0] else [])
        ++ [EngineCall.unloadSound 0,
            EngineCall.loadSound c2WitnessMachine.ctrl.nextSid
              (runEvents false c2WitnessMachine
                (requestEvs [AudioResource.stream "b", AudioResource.stream "c"]
                  false)).ctrl.nextAudioResource] :=
  c2_window_last_request false false true c2WitnessMachine 0 (AudioResource.stream "b")
    [AudioResource.stream "c"] { isLoaded := true } (by decide) (by decide)
    rfl rfl rfl rfl (by decide)
